import Mathlib

/-
Verification development for the BiomeClassification repository.

The per-cell Köppen–Geiger classifier (`classify.py`, `koppenGeigerClassify`),
its lookup tables (`constants.py`), the chunked batch evaluator
(`concurrentClassification`), and the raster pivot step
(`computeRegionalClassification`) are embedded shallowly below.

Numeric values are modelled as `Option ℚ`: `some q` is an ordinary (exact)
float value and `none` models IEEE NaN.  NumPy/Python arithmetic propagates
NaN through `+`, `*`, `-`, `/`, `sum`, `min` and `max`, and every ordered
comparison against NaN evaluates to `False`; the `f*` operations below encode
exactly that.
-/

namespace Biome

/-- A floating-point cell value: `some q` is a finite value, `none` is NaN. -/
abbrev F := Option ℚ

def fAdd : F → F → F
  | some a, some b => some (a + b)
  | _, _ => none

def fSub : F → F → F
  | some a, some b => some (a - b)
  | _, _ => none

def fMul : F → F → F
  | some a, some b => some (a * b)
  | _, _ => none

def fDiv : F → F → F
  | some a, some b => some (a / b)
  | _, _ => none

/-- `x < y` in Python: `False` whenever either side is NaN. -/
def fLt : F → F → Bool
  | some a, some b => decide (a < b)
  | _, _ => false

/-- `x <= y` in Python: `False` whenever either side is NaN. -/
def fLe : F → F → Bool
  | some a, some b => decide (a ≤ b)
  | _, _ => false

/-- `x > y` in Python: `False` whenever either side is NaN. -/
def fGt : F → F → Bool
  | some a, some b => decide (b < a)
  | _, _ => false

/-- `x >= y` in Python: `False` whenever either side is NaN. -/
def fGe : F → F → Bool
  | some a, some b => decide (b ≤ a)
  | _, _ => false

/-- `np.sum` over a list of values (NaN propagates). -/
def fSum (l : List F) : F := l.foldl fAdd (some 0)

def fMinOp : F → F → F
  | some a, some b => some (min a b)
  | _, _ => none

def fMaxOp : F → F → F
  | some a, some b => some (max a b)
  | _, _ => none

/-- `np.min` over a nonempty array (NaN propagates; the source only applies
it to 6-element windows). -/
def fMin : List F → F
  | [] => none
  | h :: t => t.foldl fMinOp h

/-- `np.max` over a nonempty array (NaN propagates). -/
def fMax : List F → F
  | [] => none
  | h :: t => t.foldl fMaxOp h

/-- A 12-month series (`tavgSeries` / `precSeries`), indices 0–11 for
January–December as in the Python arrays. -/
structure M12 where
  x0 : F
  x1 : F
  x2 : F
  x3 : F
  x4 : F
  x5 : F
  x6 : F
  x7 : F
  x8 : F
  x9 : F
  x10 : F
  x11 : F
deriving DecidableEq

def M12.toList (a : M12) : List F :=
  [a.x0, a.x1, a.x2, a.x3, a.x4, a.x5, a.x6, a.x7, a.x8, a.x9, a.x10, a.x11]

/-- The NumPy slice `arr[3:9]` (months 4–9, 1-indexed). -/
def window3to9 (a : M12) : List F := [a.x3, a.x4, a.x5, a.x6, a.x7, a.x8]

/-- The NumPy expression `np.concatenate((arr[0:3], arr[9:12]))`
(months 1–3 and 10–12). -/
def windowConcat (a : M12) : List F := [a.x0, a.x1, a.x2, a.x9, a.x10, a.x11]

/-- No entry of the series is NaN. -/
def M12.noNaN (a : M12) : Prop :=
  a.x0.isSome = true ∧ a.x1.isSome = true ∧ a.x2.isSome = true ∧
  a.x3.isSome = true ∧ a.x4.isSome = true ∧ a.x5.isSome = true ∧
  a.x6.isSome = true ∧ a.x7.isSome = true ∧ a.x8.isSome = true ∧
  a.x9.isSome = true ∧ a.x10.isSome = true ∧ a.x11.isSome = true

instance (a : M12) : Decidable a.noNaN := by
  unfold M12.noNaN; infer_instance

/-- `KOPPEN_DICT` from `src/constants.py` — the module the classifier imports
(`from constants import KOPPEN_DICT`).  Codes 1–30, no empty key, no "As". -/
def KOPPEN_DICT : List (String × Nat) :=
  [("Af", 1), ("Am", 2), ("Aw", 3),
   ("BWh", 4), ("BWk", 5), ("BSh", 6), ("BSk", 7),
   ("Csa", 8), ("Csb", 9), ("Csc", 10),
   ("Cwa", 11), ("Cwb", 12), ("Cwc", 13),
   ("Cfa", 14), ("Cfb", 15), ("Cfc", 16),
   ("Dsa", 17), ("Dsb", 18), ("Dsc", 19), ("Dsd", 20),
   ("Dwa", 21), ("Dwb", 22), ("Dwc", 23), ("Dwd", 24),
   ("Dfa", 25), ("Dfb", 26), ("Dfc", 27), ("Dfd", 28),
   ("ET", 29), ("EF", 30)]

/-- `INVERSE_KOPPEN_DICT = dict((v, k) for k, v in KOPPEN_DICT.items())`
from `src/constants.py`. -/
def INVERSE_KOPPEN_DICT : List (Nat × String) :=
  KOPPEN_DICT.map (fun p => (p.2, p.1))

/-- `KOPPEN_DICT.get(koppenClass, 0)` — the final lookup of the classifier. -/
def koppenGet (koppenClass : String) : Nat :=
  (KOPPEN_DICT.lookup koppenClass).getD 0

/-- The precipitation-threshold computation of `koppenGeigerClassify`
(`classify.py` lines 276–298).  `precArray` is the array the source calls
`precArray`; note that the caller binds it to the *temperature* series
(line 268: `precArray = np.array(tavgSeries)`).  In both hemispheres the
source tests the window it designates as winter first (yielding
`2 * m_a_t`), then the summer window (yielding `2 * m_a_t + 28`). -/
def pThresh (m_a_t m_a_p : F) (precArray : M12) (north_hemisphere : Bool) : F :=
  if north_hemisphere then
    -- northern hemisphere, summer from the 3rd to 9th month
    if fGt (fSum (windowConcat precArray)) (fMul (some (7/10)) m_a_p) then
      fMul (some 2) m_a_t
    else if fGt (fSum (window3to9 precArray)) (fMul (some (7/10)) m_a_p) then
      fAdd (fMul (some 2) m_a_t) (some 28)
    else
      fAdd (fMul (some 2) m_a_t) (some 14)
  else
    -- southern hemisphere, winter from the 3rd to 9th month
    if fGt (fSum (window3to9 precArray)) (fMul (some (7/10)) m_a_p) then
      fMul (some 2) m_a_t
    else if fGt (fSum (windowConcat precArray)) (fMul (some (7/10)) m_a_p) then
      fAdd (fMul (some 2) m_a_t) (some 28)
    else
      fAdd (fMul (some 2) m_a_t) (some 14)

/-- The loop `for temp in tempArray: if temp > 10: t_above_10 += 1`
(`classify.py` lines 271–274).  The caller binds `tempArray` to the
*precipitation* series (line 269: `tempArray = np.array(precSeries)`). -/
def tAbove10 (tempArray : M12) : Nat :=
  tempArray.toList.countP (fun temp => fGt temp (some 10))

/-- `p_s_min` as assigned in the hemisphere branches (lines 286–287, 299). -/
def pSMin (precArray : M12) (north_hemisphere : Bool) : F :=
  if north_hemisphere then fMin (window3to9 precArray)
  else fMin (windowConcat precArray)

/-- `p_s_max` as assigned in the hemisphere branches (lines 288–289, 300). -/
def pSMax (precArray : M12) (north_hemisphere : Bool) : F :=
  if north_hemisphere then fMax (window3to9 precArray)
  else fMax (windowConcat precArray)

/-- `p_w_min` as assigned in the hemisphere branches (lines 284, 301–302). -/
def pWMin (precArray : M12) (north_hemisphere : Bool) : F :=
  if north_hemisphere then fMin (windowConcat precArray)
  else fMin (window3to9 precArray)

/-- `p_w_max` as assigned in the hemisphere branches (lines 285, 303–304). -/
def pWMax (precArray : M12) (north_hemisphere : Bool) : F :=
  if north_hemisphere then fMax (windowConcat precArray)
  else fMax (window3to9 precArray)

/-- The classification conditionals of `koppenGeigerClassify`
(`classify.py` lines 306–364) assembling the `koppenClass` string.
When a C-climate has `t_above_10 = 0` no third letter is appended and the
two-letter string is returned as the source leaves it. -/
def koppenString (m_a_t m_a_p p_min t_max t_min : F) (t_above_10 : Nat)
    (p_thresh p_s_min p_s_max p_w_min p_w_max : F) : String :=
  if fLt m_a_p (fMul (some 10) p_thresh) then
    "B" ++ (if fLt m_a_p (fMul (some 5) p_thresh) then "W" else "S")
        ++ (if fGe m_a_t (some 18) then "h" else "k")
  else if fGe t_min (some 18) then
    "A" ++ (if fGe p_min (some 60) then "f"
            else if fGe p_min (fSub (some 100) (fDiv m_a_p (some 25))) then "m"
            else "w")
  else if fGt t_max (some 10) && (fLt (some 0) t_min && fLt t_min (some 18)) then
    "C" ++ (if fLt p_s_min (some 40) && fLt p_s_min (fDiv p_w_max (some 3)) then "s"
            else if fLt p_w_min (fDiv p_s_max (some 10)) then "w"
            else "f")
        ++ (if fGe t_max (some 22) then "a"
            else if 4 ≤ t_above_10 then "b"
            else if 1 ≤ t_above_10 ∧ t_above_10 < 4 then "c"
            else "")
  else if fGt t_max (some 10) && fLe t_min (some 0) then
    "D" ++ (if fLt p_s_min (some 40) && fLt p_s_min (fDiv p_w_max (some 3)) then "s"
            else if fLt p_w_min (fDiv p_s_max (some 10)) then "w"
            else "f")
        ++ (if fGe t_max (some 22) then "a"
            else if 4 ≤ t_above_10 then "b"
            else if fLt t_min (some (-38)) then "d"
            else "c")
  else if fLe t_max (some 10) then
    "E" ++ (if fGt t_max (some 0) then "T" else "F")
  else
    ""

/-- `koppenGeigerClassify(bioVarSeries, tavgSeries, precSeries,
north_hemisphere)` from `classify.py` lines 239–368.  The scalar statistics
come from the bio series (`m_a_t = bio[0]`, `m_a_p = bio[11] / 12`,
`p_min = bio[13]`, `t_max = bio[4]`, `t_min = bio[5]`); lines 268–269 of the
source bind `precArray = np.array(tavgSeries)` and
`tempArray = np.array(precSeries)`, so the temperature series flows into
every precipitation window below and the precipitation series into the
month count `t_above_10`. -/
def koppenGeigerClassify (bioVarSeries : Fin 19 → F) (tavgSeries precSeries : M12)
    (north_hemisphere : Bool) : Nat :=
  koppenGet (koppenString
    (bioVarSeries 0)
    (fDiv (bioVarSeries 11) (some 12))
    (bioVarSeries 13)
    (bioVarSeries 4)
    (bioVarSeries 5)
    (tAbove10 precSeries)
    (pThresh (bioVarSeries 0) (fDiv (bioVarSeries 11) (some 12)) tavgSeries north_hemisphere)
    (pSMin tavgSeries north_hemisphere)
    (pSMax tavgSeries north_hemisphere)
    (pWMin tavgSeries north_hemisphere)
    (pWMax tavgSeries north_hemisphere))

/-- One row of the flattened cell table handed to the batch evaluator
(`computeChunk`'s documented row layout: lat, lon, classification, bio 1–19,
tavg 1–12, prec 1–12; lat decides the hemisphere flag via `row[0] > 0`). -/
structure CellRecord where
  lat : ℚ
  bio : Fin 19 → F
  tavg : M12
  prec : M12

/-- Modelled from the spec: `classify_chunk` is referenced at `classify.py`
line 128 but never defined anywhere in the source tree.  Per the spec each
slice "is processed independently and only by calling CellClassifier per
row", exactly as the source's `computeChunk` does: every row is classified
by `koppenGeigerClassify` with the hemisphere flag `row[0] > 0`. -/
def classify_chunk (chunk : List CellRecord) : List Nat :=
  chunk.map (fun row =>
    koppenGeigerClassify row.bio row.tavg row.prec (decide (0 < row.lat)))

/-- Python `range(0, stop, step)` for `step ≥ 1` (for `step = 0` Python
raises `ValueError`; the model returns `[]` there and is only ever used
under the hypothesis `0 < step`). -/
def pyRange (stop step : Nat) : List Nat :=
  (List.range ((stop + step - 1) / step)).map (fun j => j * step)

/-- The chunk list built by `concurrentClassification` (`classify.py` lines
123–125): `chunk_size = len // num_chunks` and slices
`data.iloc[i:i+chunk_size]` for `i in range(0, len, chunk_size)`. -/
def dataChunks (data : List CellRecord) (num_chunks : Nat) : List (List CellRecord) :=
  (pyRange data.length (data.length / num_chunks)).map
    (fun i => (data.drop i).take (data.length / num_chunks))

/-- `concurrentClassification(data, num_chunks, thread_count)` from
`classify.py` lines 97–133: split into chunks, map `classify_chunk` over
them (`executor.map` returns results in submission order whatever the
worker count, so the thread pool is modelled by an order-preserving map),
and concatenate (`pd.concat`). -/
def concurrentClassification (data : List CellRecord) (num_chunks thread_count : Nat) :
    List Nat :=
  ((dataChunks data num_chunks).map classify_chunk).flatten

/-- One row of the flat classified table pivoted by
`computeRegionalClassification` (`classify.py` lines 227–228). -/
structure PivotRow where
  lat : ℚ
  lon : ℚ
  classification : Nat

/-- Some (lat, lon) pair occurs in two different rows. -/
def hasDuplicatePair : List PivotRow → Bool
  | [] => false
  | r :: rest =>
      rest.any (fun s => decide (r.lat = s.lat) && decide (r.lon = s.lon)) ||
      hasDuplicatePair rest

def insertSorted (x : ℚ) : List ℚ → List ℚ
  | [] => [x]
  | y :: t => if x ≤ y then x :: y :: t else y :: insertSorted x t

/-- The ascending sorted list of distinct values of an axis, as pandas uses
for the pivoted index/columns. -/
def axisValues (l : List ℚ) : List ℚ := l.dedup.foldr insertSorted []

/-- The value at a (lat, lon) position of the pivoted frame: the matching
row's classification, or NaN (`none`) when no row matches. -/
def pivotCell (rows : List PivotRow) (la lo : ℚ) : Option Nat :=
  (rows.find? (fun r => decide (r.lat = la) && decide (r.lon = lo))).map
    (fun r => r.classification)

/-- `DataFrame.pivot(index="lat", columns="lon", values="classification")`
as called at `classify.py` lines 227–228, with pandas' semantics: a
duplicate (index, columns) pair raises
`ValueError("Index contains duplicate entries, cannot reshape")`; otherwise
the frame is reshaped onto the full cartesian product of the sorted unique
index and column values, and any (lat, lon) combination absent from the
table is silently filled with NaN. -/
def pivot (rows : List PivotRow) : Except String (List (List (Option Nat))) :=
  if hasDuplicatePair rows then
    Except.error "Index contains duplicate entries, cannot reshape"
  else
    Except.ok ((axisValues (rows.map (fun r => r.lat))).map (fun la =>
      (axisValues (rows.map (fun r => r.lon))).map (fun lo => pivotCell rows la lo)))

/-- The precipitation-threshold rule exactly as the specification words it
(spec §4.1 step 3 / claim C1), kept separate from the implementation for
comparison: the summer/winter window sums are taken over the
*precipitation* series and compared against 70% of the *annual*
precipitation, summer first.  Months 4–9 (indices 3–8) are summer in the
Northern Hemisphere, swapped in the Southern Hemisphere. -/
def pThreshSpec (mat annualPrec : ℚ) (prec : M12) (north_hemisphere : Bool) : ℚ :=
  let monthSum := fun l => ((l : List F).filterMap id).sum
  let summer := if north_hemisphere then window3to9 prec else windowConcat prec
  let winter := if north_hemisphere then windowConcat prec else window3to9 prec
  if 7/10 * annualPrec < monthSum summer then 2 * mat + 28
  else if 7/10 * annualPrec < monthSum winter then 2 * mat
  else 2 * mat + 14

/-- The 12-month series with every month equal to `q`. -/
def m12const (q : ℚ) : M12 :=
  ⟨some q, some q, some q, some q, some q, some q,
   some q, some q, some q, some q, some q, some q⟩

/-- The bio series of the spec's concrete scenario (claim C3): bio1 = 25,
bio5 = 25, bio6 = 25, bio12 = 2400, bio14 = 200, all other variables 0. -/
def bioScenarioA : Fin 19 → F := fun i =>
  if i = 0 then some 25
  else if i = 4 then some 25
  else if i = 5 then some 25
  else if i = 11 then some 2400
  else if i = 13 then some 200
  else some 0

/-- `bioScenarioA` with NaN planted in bio2 (position 1), a variable the
classifier never reads. -/
def bioScenarioNaN : Fin 19 → F := fun i =>
  if i = 1 then none else bioScenarioA i

/-- A temperate-scenario bio series: bio1 = 15, bio5 = 15, bio6 = 15,
bio12 = 40000, bio14 = 5, all other variables 0. -/
def bioScenarioC : Fin 19 → F := fun i =>
  if i = 0 then some 15
  else if i = 4 then some 15
  else if i = 5 then some 15
  else if i = 11 then some 40000
  else if i = 13 then some 5
  else some 0

/-- An all-zero cell row, used to build concrete batch inputs. -/
def zeroCell : CellRecord := ⟨0, fun _ => some 0, m12const 0, m12const 0⟩

theorem fMul_none_right (x : F) : fMul x none = none := by cases x <;> rfl

theorem fAdd_none_left (y : F) : fAdd none y = none := by cases y <;> rfl

theorem fLt_none_right (x : F) : fLt x none = false := by cases x <;> rfl

theorem fGe_none_left (y : F) : fGe none y = false := by cases y <;> rfl

theorem fGt_none_left (y : F) : fGt none y = false := by cases y <;> rfl

theorem fLe_none_left (y : F) : fLe none y = false := by cases y <;> rfl

/-- Every branch of the threshold computation multiplies or offsets
`m_a_t`, so a NaN mean annual temperature yields a NaN threshold. -/
theorem pThresh_mat_none (m_a_p : F) (pa : M12) (n : Bool) :
    pThresh none m_a_p pa n = none := by
  unfold pThresh
  split <;> split <;> try split
  all_goals simp [fMul_none_right, fAdd_none_left]

/-- With NaN `m_a_t`, `t_max`, `t_min` and a NaN threshold, every guard of
the classification conditional chain is `False` and the `koppenClass`
string stays empty. -/
theorem koppenString_core_none (m_a_p p_min : F) (t10 : Nat) (a b c d : F) :
    koppenString none m_a_p p_min none none t10 none a b c d = "" := by
  unfold koppenString
  simp [fMul_none_right, fLt_none_right, fGe_none_left, fGt_none_left, fLe_none_left]

/-- A lookup with default 0 in a table whose values all lie in [1, 31]
returns 0 or a value in [1, 31]. -/
theorem lookup_getD_bound (s : String) :
    ∀ (l : List (String × Nat)), (∀ p ∈ l, 1 ≤ p.2 ∧ p.2 ≤ 31) →
      ((l.lookup s).getD 0 = 0 ∨ (1 ≤ (l.lookup s).getD 0 ∧ (l.lookup s).getD 0 ≤ 31))
  | [], _ => Or.inl rfl
  | (k, v) :: t, h => by
      rw [List.lookup_cons]
      cases hk : s == k with
      | true =>
          exact Or.inr (h (k, v) (List.mem_cons_self _ _))
      | false =>
          exact lookup_getD_bound s t (fun p hp => h p (List.mem_cons_of_mem _ hp))

theorem koppenGet_range (s : String) :
    koppenGet s = 0 ∨ (1 ≤ koppenGet s ∧ koppenGet s ≤ 31) :=
  lookup_getD_bound s KOPPEN_DICT (by decide)

/-- Flattening the list of `size`-sized slices taken at offsets
`0, size, 2*size, …` recovers the original list, provided enough slices
are taken. -/
theorem flatten_range_chunks {α : Type} (size : Nat) :
    ∀ (m : Nat) (l : List α), l.length ≤ m * size →
      ((List.range m).map (fun j => ((l.drop (j * size)).take size))).flatten = l := by
  intro m
  induction m with
  | zero =>
      intro l hl
      simp only [Nat.zero_mul, Nat.le_zero] at hl
      simp [List.length_eq_zero.mp hl]
  | succ n ih =>
      intro l hl
      rw [List.range_succ_eq_map, List.map_cons, List.map_map, List.flatten_cons]
      have hrw : (fun j => ((l.drop (j * size)).take size)) ∘ Nat.succ
          = fun j => (((l.drop size).drop (j * size)).take size) := by
        funext j
        simp only [Function.comp_apply, List.drop_drop]
        rw [Nat.succ_mul, Nat.add_comm]
      have hexp : (n + 1) * size = n * size + size := Nat.succ_mul n size
      rw [hrw, ih (l.drop size) (by simp only [List.length_drop]; omega)]
      simp


/-- Concatenating the chunk list of `concurrentClassification` recovers the
input rows, whenever the chunk size `len // num_chunks` is positive (for a
zero chunk size Python's `range` raises `ValueError` before any chunk is
built). -/
theorem dataChunks_flatten (data : List CellRecord) (k : Nat)
    (h : 0 < data.length / k) : (dataChunks data k).flatten = data := by
  unfold dataChunks pyRange
  rw [List.map_map]
  have hfun : (fun i => (data.drop i).take (data.length / k)) ∘ (fun j => j * (data.length / k))
      = fun j => ((data.drop (j * (data.length / k))).take (data.length / k)) := rfl
  rw [hfun]
  apply flatten_range_chunks
  rw [Nat.mul_comm]
  have h1 := Nat.div_add_mod (data.length + data.length / k - 1) (data.length / k)
  have h2 : (data.length + data.length / k - 1) % (data.length / k) < data.length / k :=
    Nat.mod_lt _ h
  omega

/-- Claim C1: at the concrete no-NaN input with all monthly temperatures 25,
all monthly precipitations 200 and bio12 = 2400 (Northern Hemisphere), the
source computes `p_thresh = 50`: its window sums range over the temperature
series (150 for the winter window) and are compared against
`0.7 * (bio12 / 12) = 140`, so the first branch fires and
`p_thresh = 2 * m_a_t = 50`.  The rule as the claim states it — window sums
over the precipitation series (1200 each) against 70% of the annual
precipitation (1680) — yields `2 * mat + 14 = 64` instead. -/
theorem pThresh_diverges_from_claimed_rule :
    pThresh (some 25) (fDiv (some 2400) (some 12)) (m12const 25) true = some 50 ∧
    pThreshSpec 25 2400 (m12const 200) true = 64 ∧ (50 : ℚ) ≠ 64 := by
  refine ⟨?_, ?_, by norm_num⟩
  · norm_num [pThresh, fGt, fSum, fAdd, fMul, fDiv, window3to9, windowConcat, m12const,
      List.foldl_cons, List.foldl_nil]
  · norm_num [pThreshSpec, window3to9, windowConcat, m12const, List.filterMap_cons,
      List.filterMap_nil, List.sum_cons, List.sum_nil]

/-- Claim C2, counterexample: planting NaN in bio2 — an input element the
classifier never reads — leaves the classification at 4 ("BWh"), so a NaN
element does not force ClassCode 0. -/
theorem classify_nan_input_nonzero :
    bioScenarioNaN 1 = none ∧
    koppenGeigerClassify bioScenarioNaN (m12const 25) (m12const 200) true = 4 ∧
    koppenGeigerClassify bioScenarioNaN (m12const 25) (m12const 200) false = 4 := by
  have h0 : bioScenarioNaN 0 = some 25 := by decide
  have h4 : bioScenarioNaN 4 = some 25 := by decide
  have h5 : bioScenarioNaN 5 = some 25 := by decide
  have h11 : bioScenarioNaN 11 = some 2400 := by decide
  have h13 : bioScenarioNaN 13 = some 200 := by decide
  refine ⟨rfl, ?_, ?_⟩ <;>
    simp only [koppenGeigerClassify, h0, h4, h5, h11, h13] <;>
    norm_num [koppenString, pThresh, tAbove10, pSMin, pSMax, pWMin, pWMax, fGt, fLt, fGe, fLe,
      fSum, fAdd, fMul, fDiv, fSub, fMin, fMax, fMinOp, fMaxOp, window3to9, windowConcat,
      M12.toList, m12const, List.countP_cons, List.countP_nil, List.foldl_cons, List.foldl_nil,
      min_self, max_self] <;>
    decide

/-- Claim C2, amended: `koppenGeigerClassify` contains no NaN test at all;
a NaN propagates through the arithmetic and makes every comparison `False`.
Consequently the result is 0 whenever the three bio variables feeding the
branch guards (bio1 = `m_a_t`, bio5 = `t_max`, bio6 = `t_min`) are all NaN
— every guard fails, the class string stays empty and the lookup defaults
to 0 — but a NaN elsewhere need not produce 0. -/
theorem classify_nan_core_zero (bio : Fin 19 → F) (tavg prec : M12) (north : Bool)
    (h0 : bio 0 = none) (h4 : bio 4 = none) (h5 : bio 5 = none) :
    koppenGeigerClassify bio tavg prec north = 0 := by
  unfold koppenGeigerClassify
  rw [h0, h4, h5, pThresh_mat_none, koppenString_core_none]
  rfl

/-- Witness for `classify_nan_core_zero` at the all-NaN bio series. -/
theorem classify_nan_core_zero_witness :
    (fun _ : Fin 19 => (none : F)) 0 = none ∧
    koppenGeigerClassify (fun _ => none) (m12const 25) (m12const 200) true = 0 :=
  ⟨rfl, classify_nan_core_zero (fun _ => none) (m12const 25) (m12const 200) true rfl rfl rfl⟩

/-- Claim C3: at the spec's concrete scenario (temperature 25 everywhere,
precipitation 200 everywhere, bio1 = 25, bio5 = 25, bio6 = 25,
bio12 = 2400, bio14 = 200, Northern Hemisphere) the source returns 4, the
code of "BWh", not 1, the code of "Af": the swapped series and the
`bio12 / 12` denominator make `m_a_p = 200 < 10 * p_thresh = 500`, so the
arid branch fires before the tropical branch is ever reached. -/
theorem classify_scenario_A_yields_BWh :
    koppenGeigerClassify bioScenarioA (m12const 25) (m12const 200) true = 4 ∧
    koppenGet "BWh" = 4 ∧ koppenGet "Af" = 1 := by
  have h0 : bioScenarioA 0 = some 25 := by decide
  have h4 : bioScenarioA 4 = some 25 := by decide
  have h5 : bioScenarioA 5 = some 25 := by decide
  have h11 : bioScenarioA 11 = some 2400 := by decide
  have h13 : bioScenarioA 13 = some 200 := by decide
  refine ⟨?_, by decide, by decide⟩
  simp only [koppenGeigerClassify, h0, h4, h5, h11, h13]
  norm_num [koppenString, pThresh, tAbove10, pSMin, pSMax, pWMin, pWMax, fGt, fLt, fGe, fLe,
    fSum, fAdd, fMul, fDiv, fSub, fMin, fMax, fMinOp, fMaxOp, window3to9, windowConcat,
    M12.toList, m12const, List.countP_cons, List.countP_nil, List.foldl_cons, List.foldl_nil,
    min_self, max_self]
  decide

/-- Claim C4: `t_above_10` is computed over `tempArray`, which line 269 of
the source binds to the *precipitation* series.  With all monthly
temperatures 15 and all monthly precipitations 5 the statistic the
classifier uses is `tAbove10 (m12const 5) = 0`, while the number of months
whose average temperature strictly exceeds 10 is 12.  Downstream, the
temperate branch then appends no third letter ("Cf") and the lookup
defaults to 0 instead of the code of "Cfb". -/
theorem tAbove10_counts_precipitation :
    tAbove10 (m12const 5) = 0 ∧
    (m12const 15).toList.countP (fun temp => fGt temp (some 10)) = 12 ∧
    koppenGeigerClassify bioScenarioC (m12const 15) (m12const 5) true = 0 ∧
    koppenGet "Cfb" = 15 := by
  have h0 : bioScenarioC 0 = some 15 := by decide
  have h4 : bioScenarioC 4 = some 15 := by decide
  have h5 : bioScenarioC 5 = some 15 := by decide
  have h11 : bioScenarioC 11 = some 40000 := by decide
  have h13 : bioScenarioC 13 = some 5 := by decide
  refine ⟨by decide, by decide, ?_, by decide⟩
  simp only [koppenGeigerClassify, h0, h4, h5, h11, h13]
  norm_num [koppenString, pThresh, tAbove10, pSMin, pSMax, pWMin, pWMax, fGt, fLt, fGe, fLe,
    fSum, fAdd, fMul, fDiv, fSub, fMin, fMax, fMinOp, fMaxOp, window3to9, windowConcat,
    M12.toList, m12const, List.countP_cons, List.countP_nil, List.foldl_cons, List.foldl_nil,
    min_self, max_self]
  decide

/-- Claim C5, counterexample: 10 rows split with `chunkCount = 3` produce
`chunk_size = 10 // 3 = 3` and hence ⌈10 / 3⌉ = 4 contiguous slices, not
exactly 3: `range(0, 10, 3)` yields the four offsets 0, 3, 6, 9. -/
theorem dataChunks_not_exactly_chunkCount :
    (dataChunks (List.replicate 10 zeroCell) 3).length = 4 ∧
    (dataChunks (List.replicate 10 zeroCell) 3).length ≠ 3 := by
  refine ⟨by decide, by decide⟩

/-- Claim C5, amended: `concurrentClassification` slices the rows into
contiguous chunks of size `len // chunkCount` (requiring that size to be
positive — otherwise Python's `range` raises), giving
`⌈len / (len // chunkCount)⌉` slices, which can exceed `chunkCount`, the
last slice holding the division remainder; the concatenated result is the
per-row classification of the input, in the same length and order,
independently of the worker count. -/
theorem concurrentClassification_preserves_order (data : List CellRecord)
    (num_chunks thread_count : Nat) (h : 0 < data.length / num_chunks) :
    concurrentClassification data num_chunks thread_count
      = data.map (fun row =>
          koppenGeigerClassify row.bio row.tavg row.prec (decide (0 < row.lat))) ∧
    (dataChunks data num_chunks).length
      = (data.length + data.length / num_chunks - 1) / (data.length / num_chunks) := by
  constructor
  · unfold concurrentClassification classify_chunk
    rw [← List.map_flatten, dataChunks_flatten data num_chunks h]
  · unfold dataChunks pyRange
    simp

/-- Witness for `concurrentClassification_preserves_order` on 10 identical
rows split into 3 chunks with 2 workers. -/
theorem concurrentClassification_preserves_order_witness :
    0 < (List.replicate 10 zeroCell).length / 3 ∧
    (concurrentClassification (List.replicate 10 zeroCell) 3 2
      = (List.replicate 10 zeroCell).map (fun row =>
          koppenGeigerClassify row.bio row.tavg row.prec (decide (0 < row.lat))) ∧
     (dataChunks (List.replicate 10 zeroCell) 3).length
      = ((List.replicate 10 zeroCell).length
          + (List.replicate 10 zeroCell).length / 3 - 1)
          / ((List.replicate 10 zeroCell).length / 3)) :=
  ⟨by decide, concurrentClassification_preserves_order (List.replicate 10 zeroCell) 3 2 (by decide)⟩

/-- Claim C6, counterexample: a flat table covering only three corners of a
2 × 2 grid — the pair (1, 1) is missing — is *not* rejected by the pivot:
pandas reshapes it onto the full cartesian product and silently fills the
missing cell with NaN. -/
theorem pivot_incomplete_rectangle_not_rejected :
    pivot [⟨0, 0, 1⟩, ⟨0, 1, 2⟩, ⟨1, 0, 3⟩]
      = Except.ok [[some 1, some 2], [some 3, none]] := by
  rfl

/-- Claim C6, amended: the duplicate half of the precondition *is*
enforced — any table in which two rows share a (lat, lon) pair makes
`DataFrame.pivot` raise
`ValueError("Index contains duplicate entries, cannot reshape")`, aborting
the run. -/
theorem pivot_duplicate_pair_rejected (rows : List PivotRow)
    (h : hasDuplicatePair rows = true) :
    pivot rows = Except.error "Index contains duplicate entries, cannot reshape" := by
  unfold pivot
  rw [h]
  rfl

/-- Witness for `pivot_duplicate_pair_rejected` on a two-row table whose
rows share the pair (0, 0). -/
theorem pivot_duplicate_pair_rejected_witness :
    hasDuplicatePair [⟨0, 0, 1⟩, ⟨0, 0, 2⟩] = true ∧
    pivot [⟨0, 0, 1⟩, ⟨0, 0, 2⟩]
      = Except.error "Index contains duplicate entries, cannot reshape" :=
  ⟨by decide, pivot_duplicate_pair_rejected [⟨0, 0, 1⟩, ⟨0, 0, 2⟩] (by decide)⟩

/-- Claim C7: on no-NaN inputs of the required lengths the classifier
returns a ClassCode in [1, 31] or 0 — its final step is a dictionary
lookup, defaulting to 0, in a table whose codes are 1–30 — and it is a pure
function of its four arguments: equal inputs give equal outputs. -/
theorem koppenGeigerClassify_range_and_pure (bio bio2 : Fin 19 → F)
    (tavg tavg2 prec prec2 : M12) (north north2 : Bool)
    (hbio : ∀ i, (bio i).isSome = true) (ht : tavg.noNaN) (hp : prec.noNaN)
    (heqb : ∀ i, bio i = bio2 i) (heqt : tavg = tavg2) (heqp : prec = prec2)
    (heqn : north = north2) :
    (koppenGeigerClassify bio tavg prec north = 0 ∨
      (1 ≤ koppenGeigerClassify bio tavg prec north ∧
       koppenGeigerClassify bio tavg prec north ≤ 31)) ∧
    koppenGeigerClassify bio tavg prec north
      = koppenGeigerClassify bio2 tavg2 prec2 north2 := by
  constructor
  · exact koppenGet_range _
  · have hb : bio = bio2 := funext heqb
    rw [hb, heqt, heqp, heqn]

/-- Witness for `koppenGeigerClassify_range_and_pure` at the no-NaN
concrete scenario input. -/
theorem koppenGeigerClassify_range_and_pure_witness :
    (∀ i, (bioScenarioA i).isSome = true) ∧
    ((koppenGeigerClassify bioScenarioA (m12const 25) (m12const 200) true = 0 ∨
      (1 ≤ koppenGeigerClassify bioScenarioA (m12const 25) (m12const 200) true ∧
       koppenGeigerClassify bioScenarioA (m12const 25) (m12const 200) true ≤ 31)) ∧
     koppenGeigerClassify bioScenarioA (m12const 25) (m12const 200) true
      = koppenGeigerClassify bioScenarioA (m12const 25) (m12const 200) true) :=
  ⟨by decide,
   koppenGeigerClassify_range_and_pure bioScenarioA bioScenarioA (m12const 25) (m12const 25)
     (m12const 200) (m12const 200) true true (by decide) (by decide) (by decide)
     (fun _ => rfl) rfl rfl rfl⟩

/-- Claim C8: whenever the arid guard `m_a_p < 10 * p_thresh` fires
(so the class string is "B" + W/S + h/k), the third letter is 'h' exactly
when `m_a_t ≥ 18`, and 'k' exactly otherwise. -/
theorem koppenString_arid_third_letter (m_a_p p_min t_max t_min : F) (t_above_10 : Nat)
    (p_thresh p_s_min p_s_max p_w_min p_w_max : F) (mat : ℚ)
    (hB : fLt m_a_p (fMul (some 10) p_thresh) = true) :
    (((koppenString (some mat) m_a_p p_min t_max t_min t_above_10 p_thresh
        p_s_min p_s_max p_w_min p_w_max).toList.get? 2 = some 'h') ↔ 18 ≤ mat) ∧
    (((koppenString (some mat) m_a_p p_min t_max t_min t_above_10 p_thresh
        p_s_min p_s_max p_w_min p_w_max).toList.get? 2 = some 'k') ↔ ¬ (18 ≤ mat)) := by
  have hs : koppenString (some mat) m_a_p p_min t_max t_min t_above_10 p_thresh
      p_s_min p_s_max p_w_min p_w_max
      = "B" ++ (if fLt m_a_p (fMul (some 5) p_thresh) then "W" else "S")
          ++ (if (18 : ℚ) ≤ mat then "h" else "k") := by
    unfold koppenString
    rw [hB]
    simp [fGe]
  rw [hs]
  by_cases hmat : (18 : ℚ) ≤ mat <;>
    cases hW : fLt m_a_p (fMul (some 5) p_thresh) <;>
      simp [hmat, hW]

/-- Witness for `koppenString_arid_third_letter`: with
`m_a_p = 100 < 10 * p_thresh = 360`, `mat = 18` exactly yields third letter
'h' and `mat = 17.999` yields 'k'. -/
theorem koppenString_arid_third_letter_witness :
    fLt (some 100) (fMul (some 10) (some 36)) = true ∧
    ((koppenString (some 18) (some 100) (some 0) (some 0) (some 0) 0 (some 36)
        (some 0) (some 0) (some 0) (some 0)).toList.get? 2 = some 'h') ∧
    ((koppenString (some (17999/1000)) (some 100) (some 0) (some 0) (some 0) 0 (some 36)
        (some 0) (some 0) (some 0) (some 0)).toList.get? 2 = some 'k') := by
  have hB : fLt (some 100) (fMul (some 10) (some 36)) = true := by norm_num [fLt, fMul]
  refine ⟨hB, ?_, ?_⟩
  · exact (koppenString_arid_third_letter (some 100) (some 0) (some 0) (some 0) 0 (some 36)
      (some 0) (some 0) (some 0) (some 0) 18 hB).1.mpr (by norm_num)
  · exact (koppenString_arid_third_letter (some 100) (some 0) (some 0) (some 0) 0 (some 36)
      (some 0) (some 0) (some 0) (some 0) (17999/1000) hB).2.mpr (by norm_num)

/-- Claim C9: in `src/constants.py`, the table the classifier imports, the
Köppen strings are pairwise distinct, every assigned code is a distinct
positive integer, and `INVERSE_KOPPEN_DICT` is the exact two-sided inverse
of `KOPPEN_DICT`. -/
theorem koppen_dict_bijective_inverse :
    (KOPPEN_DICT.map Prod.fst).Nodup ∧
    (KOPPEN_DICT.map Prod.snd).Nodup ∧
    (∀ p ∈ KOPPEN_DICT, 0 < p.2) ∧
    (∀ p ∈ KOPPEN_DICT, INVERSE_KOPPEN_DICT.lookup p.2 = some p.1) ∧
    (∀ q ∈ INVERSE_KOPPEN_DICT, KOPPEN_DICT.lookup q.2 = some q.1) := by
  decide

/-- Claim C10: the classifier reads only bio positions 0, 4, 5, 11 and 13
(bio1, bio5, bio6, bio12, bio14); two bio series agreeing there give the
same ClassCode on the same monthly series and hemisphere flag. -/
theorem classify_depends_only_on_read_bio_vars (bio bio2 : Fin 19 → F) (tavg prec : M12)
    (north : Bool) (h0 : bio 0 = bio2 0) (h4 : bio 4 = bio2 4) (h5 : bio 5 = bio2 5)
    (h11 : bio 11 = bio2 11) (h13 : bio 13 = bio2 13) :
    koppenGeigerClassify bio tavg prec north = koppenGeigerClassify bio2 tavg prec north := by
  unfold koppenGeigerClassify
  rw [h0, h4, h5, h11, h13]

/-- Witness for `classify_depends_only_on_read_bio_vars`: the NaN-planted
bio series differs from the scenario series at position 1 but agrees on
the five read positions, so the ClassCodes agree. -/
theorem classify_depends_only_on_read_bio_vars_witness :
    bioScenarioNaN 0 = bioScenarioA 0 ∧
    koppenGeigerClassify bioScenarioNaN (m12const 25) (m12const 200) true
      = koppenGeigerClassify bioScenarioA (m12const 25) (m12const 200) true :=
  ⟨by decide,
   classify_depends_only_on_read_bio_vars bioScenarioNaN bioScenarioA
     (m12const 25) (m12const 200) true
     (by decide) (by decide) (by decide) (by decide) (by decide)⟩

end Biome
